import Mathlib

/-!
Verification of the Portal Sinais signal dashboard and engine specification.

The frontend store (`useSignalStore` in the zustand store module), the WebSocket
message handler, and the REST client (`api.ts`) are embedded directly from the
TypeScript source.  The backend Signal Engine (dedup store, strategy
evaluators, scheduler) is not part of the available sources; those components
are modelled from the specification text, as marked on each definition.
-/

namespace PortalSinais

/-- Direction of a trading signal (`'LONG' | 'SHORT'` in the source). -/
inductive Direction where
  | LONG
  | SHORT
deriving DecidableEq, Repr

/-- The `Signal` interface of the store module: symbol, timeframe, strategy,
direction, price, message, optional indicator snapshot fields, timestamp.
Numeric fields are modelled as rationals. -/
structure Signal where
  symbol : String
  timeframe : String
  strategy : String
  direction : Direction
  price : ℚ
  message : String
  rsi : Option ℚ := none
  macd : Option ℚ := none
  macd_signal : Option ℚ := none
  ema50 : Option ℚ := none
  timestamp : String
deriving DecidableEq, Repr

/-- The nested `rsi` block of the `Config` interface. -/
structure RsiConfig where
  period : ℚ
  signal : ℚ
  overbought : ℚ
  oversold : ℚ
deriving DecidableEq, Repr

/-- The nested `macd` block of the `Config` interface. -/
structure MacdConfig where
  fast : ℚ
  slow : ℚ
  signal : ℚ
deriving DecidableEq, Repr

/-- The nested `gcm` block of the `Config` interface. -/
structure GcmConfig where
  harsi_len : ℚ
  harsi_smooth : ℚ
deriving DecidableEq, Repr

/-- The nested `strategies` block of the `Config` interface. -/
structure StrategiesConfig where
  active : List String
  available : List String
deriving DecidableEq, Repr

/-- The `Config` interface of the store module. -/
structure Config where
  strategies : StrategiesConfig
  symbols : List String
  timeframes : List String
  rsi : RsiConfig
  macd : MacdConfig
  gcm : GcmConfig
deriving DecidableEq, Repr

/-- State of `useSignalStore`: the data fields of the zustand store
(the action closures act on this state). -/
structure SignalStore where
  signals : List Signal
  isConnected : Bool
  activeTimeframe : Option String
  activeStrategy : Option String
  config : Option Config
  selectedSymbols : List String
  engineRunning : Bool
deriving DecidableEq, Repr

/-- Initial store state given to `create`: empty signals, disconnected,
no filters, no config, no selected symbols, engine not running. -/
def initialStore : SignalStore :=
  { signals := []
    isConnected := false
    activeTimeframe := none
    activeStrategy := none
    config := none
    selectedSymbols := []
    engineRunning := false }

/-- List-level body of `addSignal`:
`signals: [signal, ...state.signals].slice(0, 100)`. -/
def addSignalList (signal : Signal) (signals : List Signal) : List Signal :=
  (signal :: signals).take 100

/-- `addSignal`: prepend the new signal and keep the first 100. -/
def addSignal (signal : Signal) (state : SignalStore) : SignalStore :=
  { state with signals := addSignalList signal state.signals }

/-- `clearSignals`: reset the signal list to empty. -/
def clearSignals (state : SignalStore) : SignalStore :=
  { state with signals := [] }

/-- List-level body of `toggleSymbol`: remove the symbol if present
(`filter((s) => s !== symbol)`), otherwise append it. -/
def toggleSymbolList (symbol : String) (selected : List String) : List String :=
  if selected.contains symbol then
    selected.filter (fun s => s != symbol)
  else
    selected ++ [symbol]

/-- `toggleSymbol` acting on the whole store state. -/
def toggleSymbol (symbol : String) (state : SignalStore) : SignalStore :=
  { state with selectedSymbols := toggleSymbolList symbol state.selectedSymbols }

/-- `setSelectedSymbols`. -/
def setSelectedSymbols (symbols : List String) (state : SignalStore) : SignalStore :=
  { state with selectedSymbols := symbols }

/-- `setConnected`. -/
def setConnected (connected : Bool) (state : SignalStore) : SignalStore :=
  { state with isConnected := connected }

/-- `setActiveTimeframe`. -/
def setActiveTimeframe (tf : Option String) (state : SignalStore) : SignalStore :=
  { state with activeTimeframe := tf }

/-- `setActiveStrategy`. -/
def setActiveStrategy (strat : Option String) (state : SignalStore) : SignalStore :=
  { state with activeStrategy := strat }

/-- `setEngineRunning`. -/
def setEngineRunning (running : Bool) (state : SignalStore) : SignalStore :=
  { state with engineRunning := running }

/-- JavaScript truthiness of a `string | null` value: `null` and the empty
string are falsy, every other string is truthy. -/
def strTruthy (o : Option String) : Bool :=
  match o with
  | none => false
  | some s => s != ""

/-- The filter predicate of `useFilteredSignals`:
`if (activeTimeframe && signal.timeframe !== activeTimeframe) return false;`
`if (activeStrategy && signal.strategy !== activeStrategy) return false;`
`return true;` -/
def signalPasses (activeTimeframe activeStrategy : Option String) (s : Signal) : Bool :=
  if strTruthy activeTimeframe && (s.timeframe != activeTimeframe.getD "") then false
  else if strTruthy activeStrategy && (s.strategy != activeStrategy.getD "") then false
  else true

/-- `useFilteredSignals`: the stored signals filtered by the active
timeframe/strategy filters. -/
def filteredSignals (activeTimeframe activeStrategy : Option String)
    (signals : List Signal) : List Signal :=
  signals.filter (signalPasses activeTimeframe activeStrategy)

/-- Folding a sequence of `addSignal` calls over the store, oldest first. -/
def applyAdds (adds : List Signal) (state : SignalStore) : SignalStore :=
  adds.foldl (fun st s => addSignal s st) state

/-- A parsed WebSocket message as consumed by `ws.onmessage`: the `type` tag
and the `data` payload (a well-typed signal for messages that carry one). -/
structure WsMessage where
  type : String
  data : Signal
deriving DecidableEq, Repr

/-- Effect of the `ws.onmessage` handler on the store.  `JSON.parse` runs
inside try/catch, so a payload that fails to parse (modelled as `none`)
leaves the store unchanged; a message with `type === 'signal'` adds its
`data` via `addSignal`; any other type (e.g. `'heartbeat'`) only logs and
leaves the store unchanged. -/
def handleWsMessage (parsed : Option WsMessage) (state : SignalStore) : SignalStore :=
  match parsed with
  | none => state
  | some m => if m.type == "signal" then addSignal m.data state else state

/-- Abstract content of the `URLSearchParams` built by `getRecentSignals`:
key/value pairs in insertion order.  `query.set` runs for a parameter only
when its value is truthy (`if (params?.symbol) ...`). -/
def recentSignalsQueryPairs (symbol strategy timeframe : Option String) :
    List (String × String) :=
  (if strTruthy symbol then [("symbol", symbol.getD "")] else []) ++
  (if strTruthy strategy then [("strategy", strategy.getD "")] else []) ++
  (if strTruthy timeframe then [("timeframe", timeframe.getD "")] else [])

/-- `URLSearchParams.toString()` for plain (URL-safe) parameter values:
`key=value` pairs joined by `&`. -/
def renderQuery (pairs : List (String × String)) : String :=
  String.intercalate "&" (pairs.map (fun p => p.1 ++ "=" ++ p.2))

/-- The endpoint string passed to `request` by `getRecentSignals`:
`/signals/` followed by `?query` exactly when the query string is
non-empty. -/
def getRecentSignalsEndpoint (symbol strategy timeframe : Option String) : String :=
  let qs := renderQuery (recentSignalsQueryPairs symbol strategy timeframe)
  "/signals/" ++ (if qs == "" then "" else "?" ++ qs)

/-- The identity under which "has this alert already fired" is tracked:
(symbol, timeframe, strategy).  The trigger bar time is the stored value. -/
structure DedupKey where
  symbol : String
  timeframe : String
  strategy : String
deriving DecidableEq, Repr

/-- Modelled from the spec: the Dedup/State Store of §4.3 (the backend engine
source is not in the repository).  Storage is a mapping from DedupKey to the
last-seen triggerBarTime; only the most recent time per key is retained. -/
def DedupStore : Type := DedupKey → Option Nat

/-- The dedup store before any signal has been emitted. -/
def emptyDedupStore : DedupStore := fun _ => none

/-- Modelled from the spec: `shouldEmit(key, triggerBarTime)` — true iff no
bar time is recorded for the key, or the recorded last-seen time is older
than the given one (monotonic replacement supersedes by newer times). -/
def shouldEmit (store : DedupStore) (k : DedupKey) (t : Nat) : Bool :=
  match store k with
  | none => true
  | some last => decide (last < t)

/-- Modelled from the spec: `markEmitted(key, triggerBarTime)` — record the
given bar time as the last-seen one for the key. -/
def markEmitted (store : DedupStore) (k : DedupKey) (t : Nat) : DedupStore :=
  fun k2 => if k2 = k then some t else store k2

/-- Modelled from the spec §4.4: for a non-nil evaluator candidate, consult
the Dedup Store; if cleared, mark emitted and publish the signal.  Returns
the published signal (if any) together with the updated store.  The
evaluator output is deterministic in the closed-bar input, so running the
pipeline twice on identical input passes the same candidate twice. -/
def emitStep (store : DedupStore) (k : DedupKey) (t : Nat)
    (candidate : Option Signal) : Option Signal × DedupStore :=
  match candidate with
  | none => (none, store)
  | some s =>
    if shouldEmit store k t then (some s, markEmitted store k t)
    else (none, store)

/-- Modelled from the spec §4.4: lifecycle states of the Scheduler/Worker. -/
inductive EngineLifecycle where
  | STOPPED
  | STARTING
  | RUNNING
  | STOPPING
deriving DecidableEq, Repr

/-- Modelled from the spec: engine control state — the lifecycle state plus
the number of currently scheduled recurring tick timers. -/
structure EngineState where
  lifecycle : EngineLifecycle
  activeTimers : Nat
deriving DecidableEq, Repr

/-- Engine state before `start()` has ever been called. -/
def initialEngine : EngineState := ⟨.STOPPED, 0⟩

/-- Modelled from the spec §4.4: `start()` transitions STOPPED→STARTING,
schedules one recurring tick timer and moves to RUNNING; calling `start()`
in any other state is a no-op reported as success.  Returns the new state
and the success flag. -/
def startEngine (e : EngineState) : EngineState × Bool :=
  match e.lifecycle with
  | .STOPPED => ({ lifecycle := .RUNNING, activeTimers := e.activeTimers + 1 }, true)
  | _ => (e, true)

/-- Modelled from the spec §4.4: `stop()` transitions RUNNING→STOPPING,
cancels the recurring timer and moves to STOPPED; calling `stop()` while
STOPPED is a no-op reported as success. -/
def stopEngine (e : EngineState) : EngineState × Bool :=
  match e.lifecycle with
  | .RUNNING => ({ lifecycle := .STOPPED, activeTimers := e.activeTimers - 1 }, true)
  | _ => (e, true)

/-- The two most recent values of a series: `some (prev, last)` when the
series has at least two entries, `none` otherwise.  Evaluators inspect only
the last two fully closed bars. -/
def lastTwo (l : List ℚ) : Option (ℚ × ℚ) :=
  match l.reverse with
  | last :: prev :: _ => some (prev, last)
  | _ => none

/-- Modelled from the spec §4.1: simple moving average of the last `n`
values, undefined when fewer than `n` values are available (or n = 0). -/
def smaLast (n : Nat) (xs : List ℚ) : Option ℚ :=
  if n = 0 then none
  else if xs.length < n then none
  else some ((xs.drop (xs.length - n)).sum / n)

/-- Per-bar gains of a close series: max(cᵢ₊₁ − cᵢ, 0). -/
def gains (closes : List ℚ) : List ℚ :=
  (closes.zip closes.tail).map (fun p => max (p.2 - p.1) 0)

/-- Per-bar losses of a close series: max(cᵢ − cᵢ₊₁, 0). -/
def losses (closes : List ℚ) : List ℚ :=
  (closes.zip closes.tail).map (fun p => max (p.1 - p.2) 0)

/-- A smoothed series seeded with the SMA of the first `period` inputs and
then advanced by `step` on each later input; aligned from bar `period` of
the input series on, empty when the input is shorter than `period` (or
period = 0): "insufficient data when input length < required lookback". -/
def seededSeries (period : Nat) (step : ℚ → ℚ → ℚ) (xs : List ℚ) : List ℚ :=
  if xs.length < period ∨ period = 0 then []
  else (xs.drop period).scanl step ((xs.take period).sum / period)

/-- Modelled from the spec §4.1: Wilder smoothing — the seed is the plain
average of the first `period` values and each later average is
(avg·(period−1) + x)/period. -/
def wilderSeries (period : Nat) (xs : List ℚ) : List ℚ :=
  seededSeries period (fun avg x => (avg * ((period : ℚ) - 1) + x) / period) xs

/-- Modelled from the spec §4.1: RSI series by Wilder-smoothed average gain
and loss, RSI = 100 − 100/(1 + RS) with RS = avgGain/avgLoss (RSI = 100 when
the average loss is zero); the first `period` bars are warm-up and produce
no value. -/
def rsiSeries (period : Nat) (closes : List ℚ) : List ℚ :=
  List.zipWith
    (fun g l => if l = 0 then 100 else 100 - 100 / (1 + g / l))
    (wilderSeries period (gains closes))
    (wilderSeries period (losses closes))

/-- Modelled from the spec §4.1: EMA series with SMA seed — each later value
is α·x + (1−α)·ema with α = 2/(period+1); aligned from bar `period − 1` of
the input on. -/
def emaSeries (period : Nat) (xs : List ℚ) : List ℚ :=
  seededSeries period
    (fun ema x => (2 / ((period : ℚ) + 1)) * x + (1 - 2 / ((period : ℚ) + 1)) * ema)
    xs

/-- Modelled from the spec §4.1: MACD series = EMA(fast) − EMA(slow), the two
EMA series aligned on the bars where the slow one is defined. -/
def macdSeries (fast slow : Nat) (closes : List ℚ) : List ℚ :=
  List.zipWith (fun f s => f - s)
    ((emaSeries fast closes).drop (slow - fast)) (emaSeries slow closes)

/-- Rolling simple moving average series: one value per full `n`-window of
the input, aligned from bar `n − 1` on; empty when n = 0. -/
def smaSeries (n : Nat) (xs : List ℚ) : List ℚ :=
  if n = 0 then []
  else (List.range (xs.length + 1 - n)).map (fun i => ((xs.drop i).take n).sum / n)

/-- Modelled from the spec §4.1: the Heikin-Ashi open recurrence applied to
a synthetic price series — haOpen₀ is the first value, and
haOpenᵢ = (haOpenᵢ₋₁ + haCloseᵢ₋₁)/2 where the synthetic haClose is the
series itself. -/
def haOpenSeries (xs : List ℚ) : List ℚ :=
  match xs with
  | [] => []
  | x0 :: _ => (xs.dropLast).scanl (fun o c => (o + c) / 2) x0

/-- Parameters of the RSI strategy evaluator (period of the RSI, period of
its moving-average signal line, and the optional price-vs-EMA50 trend
gate). -/
structure RsiStrategyConfig where
  period : Nat
  signalPeriod : Nat
  useEmaFilter : Bool
deriving DecidableEq, Repr

/-- Minimum number of closed candles the RSI strategy's indicators need: the
RSI warm-up plus a full signal-line window at the previous bar, and — when
the trend gate is on — the 50-bar EMA seed. -/
def rsiMinLookback (cfg : RsiStrategyConfig) : Nat :=
  max (cfg.period + cfg.signalPeriod + 1) (if cfg.useEmaFilter then 50 else 0)

/-- Modelled from the spec §4.2 (RSI strategy evaluator; the backend engine
source is not in the repository): fires on the bar where the RSI crosses its
own moving-average signal line between the two most recent closed bars
(cross-up → LONG, cross-down → SHORT), gated by the price-vs-EMA50 trend
filter when `use_ema_filter` is set (LONG only if price > EMA50, SHORT only
if price < EMA50); returns no candidate when any required indicator value
is undefined. -/
def rsiEvaluate (cfg : RsiStrategyConfig) (closes : List ℚ) : Option Direction :=
  match (if cfg.useEmaFilter then (emaSeries 50 closes).getLast? else some 0),
        smaLast cfg.signalPeriod (rsiSeries cfg.period closes).dropLast,
        smaLast cfg.signalPeriod (rsiSeries cfg.period closes),
        lastTwo (rsiSeries cfg.period closes),
        closes.getLast? with
  | some ema, some sigPrev, some sigNow, some (rsiPrev, rsiNow), some price =>
    if rsiPrev ≤ sigPrev ∧ sigNow < rsiNow ∧
        (cfg.useEmaFilter = false ∨ ema < price) then some .LONG
    else if sigPrev ≤ rsiPrev ∧ rsiNow < sigNow ∧
        (cfg.useEmaFilter = false ∨ price < ema) then some .SHORT
    else none
  | _, _, _, _, _ => none

/-- Parameters of the MACD strategy evaluator. -/
structure MacdStrategyConfig where
  fast : Nat
  slow : Nat
  signalPeriod : Nat
deriving DecidableEq, Repr

/-- Minimum number of closed candles the MACD strategy's indicators need:
the slow EMA seed plus a full signal-line EMA seed and a previous bar. -/
def macdMinLookback (cfg : MacdStrategyConfig) : Nat :=
  cfg.slow + cfg.signalPeriod

/-- The (MACD − signal-line) series of the MACD crossover primitive,
aligned on the bars where the signal line is defined. -/
def macdSignalDiffs (fast slow signalPeriod : Nat) (closes : List ℚ) : List ℚ :=
  List.zipWith (fun m s => m - s)
    ((macdSeries fast slow closes).drop (signalPeriod - 1))
    (emaSeries signalPeriod (macdSeries fast slow closes))

/-- Modelled from the spec §4.2 (MACD strategy evaluator; the backend engine
source is not in the repository): classic crossover semantics — a sign
change of (MACD − signal) between the two most recent closed bars; returns
no candidate when the series is too short to hold two values. -/
def macdEvaluate (cfg : MacdStrategyConfig) (closes : List ℚ) : Option Direction :=
  match lastTwo (macdSignalDiffs cfg.fast cfg.slow cfg.signalPeriod closes) with
  | some (dPrev, dNow) =>
    if dPrev ≤ 0 ∧ 0 < dNow then some .LONG
    else if 0 ≤ dPrev ∧ dNow < 0 then some .SHORT
    else none
  | none => none

/-- Parameters of the GCM (Heikin-Ashi RSI Trend Cloud) evaluator: HA-RSI
length and cloud smoothing length. -/
structure GcmStrategyConfig where
  harsiLen : Nat
  harsiSmooth : Nat
deriving DecidableEq, Repr

/-- Minimum number of closed candles the GCM strategy's indicators need:
the HA-RSI warm-up plus a full smoothing window at the previous bar. -/
def gcmMinLookback (cfg : GcmStrategyConfig) : Nat :=
  cfg.harsiLen + cfg.harsiSmooth + 1

/-- The (smoothed HA-close − smoothed HA-open) series of the HA-RSI trend
cloud: the RSI series is treated as a synthetic price series, the
Heikin-Ashi open recurrence is applied to it, and both cloud edges are
smoothed with a moving average of `smooth` length. -/
def gcmCloudDiffs (harsiLen harsiSmooth : Nat) (closes : List ℚ) : List ℚ :=
  List.zipWith (fun c o => c - o)
    (smaSeries harsiSmooth (rsiSeries harsiLen closes))
    (smaSeries harsiSmooth (haOpenSeries (rsiSeries harsiLen closes)))

/-- Modelled from the spec §4.2 (GCM evaluator; the backend engine source is
not in the repository): fires when the smoothed HA-RSI cloud transitions
direction — HA-close crosses HA-open between the two most recent closed
bars — with the direction given by the sign of the cross. -/
def gcmEvaluate (cfg : GcmStrategyConfig) (closes : List ℚ) : Option Direction :=
  match lastTwo (gcmCloudDiffs cfg.harsiLen cfg.harsiSmooth closes) with
  | some (dPrev, dNow) =>
    if dPrev ≤ 0 ∧ 0 < dNow then some .LONG
    else if 0 ≤ dPrev ∧ dNow < 0 then some .SHORT
    else none
  | none => none

/-- Parameters of the RSI+EMA50 composition: RSI period, RSI signal-line
period and the trend-filter EMA period. -/
structure RsiEma50StrategyConfig where
  rsiPeriod : Nat
  rsiSignalPeriod : Nat
  emaPeriod : Nat
deriving DecidableEq, Repr

/-- Minimum number of closed candles the RSI+EMA50 strategy's indicators
need: the RSI-cross lookback or the trend EMA seed, whichever is larger. -/
def rsiEma50MinLookback (cfg : RsiEma50StrategyConfig) : Nat :=
  max (cfg.rsiPeriod + cfg.rsiSignalPeriod + 1) cfg.emaPeriod

/-- Modelled from the spec §4.2 (RSI+EMA50 composition; the backend engine
source is not in the repository): the RSI signal-line cross with the
price-vs-EMA trend filter mandatory. -/
def rsiEma50Evaluate (cfg : RsiEma50StrategyConfig) (closes : List ℚ) :
    Option Direction :=
  match (emaSeries cfg.emaPeriod closes).getLast?,
        smaLast cfg.rsiSignalPeriod (rsiSeries cfg.rsiPeriod closes).dropLast,
        smaLast cfg.rsiSignalPeriod (rsiSeries cfg.rsiPeriod closes),
        lastTwo (rsiSeries cfg.rsiPeriod closes),
        closes.getLast? with
  | some ema, some sigPrev, some sigNow, some (rsiPrev, rsiNow), some price =>
    if rsiPrev ≤ sigPrev ∧ sigNow < rsiNow ∧ ema < price then some .LONG
    else if sigPrev ≤ rsiPrev ∧ rsiNow < sigNow ∧ price < ema then some .SHORT
    else none
  | _, _, _, _, _ => none

/-- Parameters of the Scalping composition: fast/slow EMA periods, RSI
period and the RSI neutral level. -/
structure ScalpingStrategyConfig where
  emaFast : Nat
  emaSlow : Nat
  rsiPeriod : Nat
  rsiNeutral : ℚ
deriving DecidableEq, Repr

/-- Minimum number of closed candles the Scalping strategy's indicators
need: two bars of the slow EMA, or the RSI warm-up plus its first value,
whichever is larger. -/
def scalpingMinLookback (cfg : ScalpingStrategyConfig) : Nat :=
  max (cfg.emaSlow + 1) (cfg.rsiPeriod + 1)

/-- Modelled from the spec §4.2 (Scalping composition; the backend engine
source is not in the repository): a dual EMA (fast/slow) crossover between
the two most recent closed bars, confirmed by the RSI being above (LONG) or
below (SHORT) its neutral level. -/
def scalpingEvaluate (cfg : ScalpingStrategyConfig) (closes : List ℚ) :
    Option Direction :=
  match lastTwo (macdSeries cfg.emaFast cfg.emaSlow closes),
        (rsiSeries cfg.rsiPeriod closes).getLast? with
  | some (dPrev, dNow), some r =>
    if dPrev ≤ 0 ∧ 0 < dNow ∧ cfg.rsiNeutral < r then some .LONG
    else if 0 ≤ dPrev ∧ dNow < 0 ∧ r < cfg.rsiNeutral then some .SHORT
    else none
  | _, _ => none

/-- Parameters of the Swing Trade composition: HA-RSI cloud lengths and the
trend-filter EMA period. -/
structure SwingStrategyConfig where
  harsiLen : Nat
  harsiSmooth : Nat
  emaFilter : Nat
deriving DecidableEq, Repr

/-- Minimum number of closed candles the Swing Trade strategy's indicators
need: the HA-RSI cloud cross lookback or the filter EMA seed, whichever is
larger. -/
def swingMinLookback (cfg : SwingStrategyConfig) : Nat :=
  max (cfg.harsiLen + cfg.harsiSmooth + 1) cfg.emaFilter

/-- Modelled from the spec §4.2 (Swing Trade composition; the backend engine
source is not in the repository): the HA-RSI cloud cross gated by the
price-vs-EMA trend filter (EMA100 by default). -/
def swingEvaluate (cfg : SwingStrategyConfig) (closes : List ℚ) :
    Option Direction :=
  match (emaSeries cfg.emaFilter closes).getLast?,
        lastTwo (gcmCloudDiffs cfg.harsiLen cfg.harsiSmooth closes),
        closes.getLast? with
  | some ema, some (dPrev, dNow), some price =>
    if dPrev ≤ 0 ∧ 0 < dNow ∧ ema < price then some .LONG
    else if 0 ≤ dPrev ∧ dNow < 0 ∧ price < ema then some .SHORT
    else none
  | _, _, _ => none

/-- The (RSI − signal-line) series of the RSI crossover primitive, aligned
on the bars where the moving-average signal line is defined. -/
def rsiSignalDiffs (period maPeriod : Nat) (closes : List ℚ) : List ℚ :=
  List.zipWith (fun r s => r - s)
    ((rsiSeries period closes).drop (maPeriod - 1))
    (smaSeries maPeriod (rsiSeries period closes))

/-- Per-bar cross-up flags of a signed diff series: true on each bar where
the sign changes from non-positive to positive. -/
def crossUpFlags (d : List ℚ) : List Bool :=
  List.zipWith (fun p n => decide (p ≤ 0 ∧ 0 < n)) d.dropLast d.tail

/-- Per-bar cross-down flags of a signed diff series: true on each bar
where the sign changes from non-negative to negative. -/
def crossDownFlags (d : List ℚ) : List Bool :=
  List.zipWith (fun p n => decide (0 ≤ p ∧ n < 0)) d.dropLast d.tail

/-- Whether any of the last `window` flags is set. -/
def recentAny (window : Nat) (flags : List Bool) : Bool :=
  (flags.reverse.take window).any id

/-- Whether the diff series completes a cross-up on the most recent bar. -/
def crossUpNow (d : List ℚ) : Bool :=
  match lastTwo d with
  | some (p, n) => decide (p ≤ 0 ∧ 0 < n)
  | none => false

/-- Whether the diff series completes a cross-down on the most recent
bar. -/
def crossDownNow (d : List ℚ) : Bool :=
  match lastTwo d with
  | some (p, n) => decide (0 ≤ p ∧ n < 0)
  | none => false

/-- Parameters of the Day Trade (COMBO) composition: the MACD periods, the
RSI period and signal-MA period, and the confirmation window in bars. -/
structure DayTradeStrategyConfig where
  macdFast : Nat
  macdSlow : Nat
  macdSignalPeriod : Nat
  rsiPeriod : Nat
  rsiMaPeriod : Nat
  confirmWindow : Nat
deriving DecidableEq, Repr

/-- Minimum number of closed candles the Day Trade strategy's indicators
need: the MACD crossover lookback or the RSI crossover lookback, whichever
is larger. -/
def dayTradeMinLookback (cfg : DayTradeStrategyConfig) : Nat :=
  max (cfg.macdSlow + cfg.macdSignalPeriod)
    (cfg.rsiPeriod + cfg.rsiMaPeriod + 1)

/-- Modelled from the spec §4.2 and §8 (Day Trade/COMBO composition; the
backend engine source is not in the repository): fires when one component
(MACD or RSI) completes its crossover on the current bar and both
components have crossed in the same direction within the last
`confirm_window` bars; a tie where both directions qualify yields no
candidate (never contradictory signals for one bar). -/
def dayTradeEvaluate (cfg : DayTradeStrategyConfig) (closes : List ℚ) :
    Option Direction :=
  match lastTwo (macdSignalDiffs cfg.macdFast cfg.macdSlow cfg.macdSignalPeriod closes),
        lastTwo (rsiSignalDiffs cfg.rsiPeriod cfg.rsiMaPeriod closes) with
  | some _, some _ =>
    let mDiffs := macdSignalDiffs cfg.macdFast cfg.macdSlow cfg.macdSignalPeriod closes
    let rDiffs := rsiSignalDiffs cfg.rsiPeriod cfg.rsiMaPeriod closes
    let longCond := (crossUpNow mDiffs || crossUpNow rDiffs)
      && recentAny cfg.confirmWindow (crossUpFlags mDiffs)
      && recentAny cfg.confirmWindow (crossUpFlags rDiffs)
    let shortCond := (crossDownNow mDiffs || crossDownNow rDiffs)
      && recentAny cfg.confirmWindow (crossDownFlags mDiffs)
      && recentAny cfg.confirmWindow (crossDownFlags rDiffs)
    if longCond && shortCond then none
    else if longCond then some .LONG
    else if shortCond then some .SHORT
    else none
  | _, _ => none

/-- Parameters of the JFN composition: fast/slow EMA lengths (EMA20/EMA50
by default). -/
structure JfnStrategyConfig where
  fastLength : Nat
  slowLength : Nat
deriving DecidableEq, Repr

/-- Minimum number of closed candles the JFN strategy's indicators need:
two bars of the slow EMA. -/
def jfnMinLookback (cfg : JfnStrategyConfig) : Nat :=
  cfg.slowLength + 1

/-- Modelled from the spec §4.2 (JFN composition; the backend engine source
is not in the repository): a dual EMA (fast/slow) crossover between the two
most recent closed bars.  Its assertiveness-by-simulation filter can only
suppress candidates, so it does not affect abstention on short input. -/
def jfnEvaluate (cfg : JfnStrategyConfig) (closes : List ℚ) : Option Direction :=
  match lastTwo (macdSeries cfg.fastLength cfg.slowLength closes) with
  | some (dPrev, dNow) =>
    if dPrev ≤ 0 ∧ 0 < dNow then some .LONG
    else if 0 ≤ dPrev ∧ dNow < 0 then some .SHORT
    else none
  | none => none

/-- The formalisation of the spec's filter-inclusion sentence for claim
comparison: a signal is included iff (no timeframe filter is set or the
signal's timeframe equals it) and (no strategy filter is set or the
signal's strategy equals it). -/
def specIncluded (activeTimeframe activeStrategy : Option String) (s : Signal) : Prop :=
  (activeTimeframe = none ∨ activeTimeframe = some s.timeframe) ∧
  (activeStrategy = none ∨ activeStrategy = some s.strategy)

/-- A sample signal used to instantiate witnesses and counterexamples. -/
def sampleSignal : Signal :=
  { symbol := "BTCUSDT"
    timeframe := "1h"
    strategy := "RSI"
    direction := .LONG
    price := 50000
    message := "RSI cross up"
    timestamp := "2024-01-01T00:00:00Z" }

/-- A sample dedup key matching `sampleSignal`. -/
def sampleKey : DedupKey :=
  { symbol := "BTCUSDT", timeframe := "1h", strategy := "RSI" }

/-- A second sample signal, with a different timeframe and strategy. -/
def sampleSignal2 : Signal :=
  { symbol := "ETHUSDT"
    timeframe := "4h"
    strategy := "MACD"
    direction := .SHORT
    price := 3000
    message := "MACD cross down"
    timestamp := "2024-01-01T01:00:00Z" }

section Lemmas

/-- Truncating the tail before appending does not change a 100-truncated
append. -/
theorem take_append_take (ys zs : List Signal) :
    (ys ++ zs.take 100).take 100 = (ys ++ zs).take 100 := by
  rw [List.take_append_eq_append_take, List.take_append_eq_append_take, List.take_take]
  congr 1
  exact congrArg (fun k => zs.take k) (min_eq_left (by omega))

/-- Folding `addSignal` calls over a store whose signal list is already
100-truncated yields the reversed adds in front of the old list, truncated
to 100. -/
theorem applyAdds_signals_aux (adds : List Signal) :
    ∀ st : SignalStore, st.signals.take 100 = st.signals →
      (applyAdds adds st).signals = (adds.reverse ++ st.signals).take 100 := by
  induction adds with
  | nil =>
    intro st h
    simp only [applyAdds, List.foldl_nil, List.reverse_nil, List.nil_append]
    exact h.symm
  | cons a rest ih =>
    intro st h
    have step : applyAdds (a :: rest) st = applyAdds rest (addSignal a st) := rfl
    have htrunc : (addSignal a st).signals.take 100 = (addSignal a st).signals := by
      simp [addSignal, addSignalList, List.take_take]
    rw [step, ih (addSignal a st) htrunc]
    show (rest.reverse ++ ((a :: st.signals).take 100)).take 100 = _
    rw [take_append_take, List.reverse_cons, List.append_assoc]
    rfl

/-- The stored signal list after a sequence of `addSignal` calls starting
from the initial store: the reversed publish order, truncated to 100. -/
theorem applyAdds_signals (adds : List Signal) :
    (applyAdds adds initialStore).signals = adds.reverse.take 100 := by
  have h := applyAdds_signals_aux adds initialStore (by rfl)
  simpa [initialStore] using h

end Lemmas

/-- C2: the stored signal list never exceeds 100 entries and its head is the
most recently added signal: `addSignal` prepends and truncates to the first
100 entries, `clearSignals` resets to the empty list, and any sequence of
adds from the empty store yields the reversed publish order truncated to
100, hence length at most 100. -/
theorem signal_list_invariants (s : Signal) (st : SignalStore) (adds : List Signal) :
    (addSignal s st).signals = (s :: st.signals).take 100 ∧
    (addSignal s st).signals.length ≤ 100 ∧
    (addSignal s st).signals.head? = some s ∧
    (clearSignals st).signals = [] ∧
    (applyAdds adds initialStore).signals = adds.reverse.take 100 ∧
    (applyAdds adds initialStore).signals.length ≤ 100 := by
  refine ⟨rfl, ?_, ?_, rfl, applyAdds_signals adds, ?_⟩
  · exact List.length_take_le 100 _
  · show ((s :: st.signals).take 100).head? = some s
    rw [show (100 : Nat) = 99 + 1 from rfl, List.take_succ_cons]
    rfl
  · rw [applyAdds_signals adds]
    exact List.length_take_le 100 _

/-- C4: the filtered feed is an order-preserving subsequence (a `Sublist`)
of the stored signal list, which itself holds the published signals in
reverse arrival order (most recently added first, truncated to 100); so any
two signals passing the filter appear in publish-determined relative
order. -/
theorem filtered_feed_order_preserving (tf strat : Option String)
    (st : SignalStore) (adds : List Signal) :
    List.Sublist (filteredSignals tf strat st.signals) st.signals ∧
    (applyAdds adds initialStore).signals = adds.reverse.take 100 ∧
    List.Sublist (filteredSignals tf strat (applyAdds adds initialStore).signals)
      (adds.reverse.take 100) := by
  refine ⟨List.filter_sublist _, applyAdds_signals adds, ?_⟩
  rw [applyAdds_signals adds]
  exact List.filter_sublist _

/-- C10: `addSignal` and `clearSignals` modify only the `signals` field —
connection flag, active filters, config, selected symbols and engine flag
are exactly preserved. -/
theorem store_ops_frame_only (s : Signal) (st : SignalStore) :
    (addSignal s st).isConnected = st.isConnected ∧
    (addSignal s st).activeTimeframe = st.activeTimeframe ∧
    (addSignal s st).activeStrategy = st.activeStrategy ∧
    (addSignal s st).config = st.config ∧
    (addSignal s st).selectedSymbols = st.selectedSymbols ∧
    (addSignal s st).engineRunning = st.engineRunning ∧
    (clearSignals st).isConnected = st.isConnected ∧
    (clearSignals st).activeTimeframe = st.activeTimeframe ∧
    (clearSignals st).activeStrategy = st.activeStrategy ∧
    (clearSignals st).config = st.config ∧
    (clearSignals st).selectedSymbols = st.selectedSymbols ∧
    (clearSignals st).engineRunning = st.engineRunning :=
  ⟨rfl, rfl, rfl, rfl, rfl, rfl, rfl, rfl, rfl, rfl, rfl, rfl⟩

/-- C9: the store's signal list changes only on a successfully parsed
message of type 'signal', in which case exactly that signal is added; a
parse failure (caught inside the handler) or any other message type leaves
the store unchanged. -/
theorem ws_message_effect (parsed : Option WsMessage) (st : SignalStore) :
    (parsed = none → handleWsMessage parsed st = st) ∧
    (∀ m, parsed = some m → m.type = "signal" →
      handleWsMessage parsed st = addSignal m.data st) ∧
    (∀ m, parsed = some m → m.type ≠ "signal" →
      handleWsMessage parsed st = st) := by
  refine ⟨?_, ?_, ?_⟩
  · intro h; subst h; rfl
  · intro m h htype; subst h
    simp [handleWsMessage, htype]
  · intro m h htype; subst h
    simp [handleWsMessage, htype]

/-- C9 witness: a parse failure and a heartbeat leave the initial store
unchanged; a signal message adds exactly its payload. -/
theorem ws_message_effect_witness :
    handleWsMessage none initialStore = initialStore ∧
    handleWsMessage (some ⟨"heartbeat", sampleSignal⟩) initialStore = initialStore ∧
    handleWsMessage (some ⟨"signal", sampleSignal⟩) initialStore
      = addSignal sampleSignal initialStore :=
  ⟨(ws_message_effect none initialStore).1 rfl,
   (ws_message_effect (some ⟨"heartbeat", sampleSignal⟩) initialStore).2.2
     ⟨"heartbeat", sampleSignal⟩ rfl (by decide),
   (ws_message_effect (some ⟨"signal", sampleSignal⟩) initialStore).2.1
     ⟨"signal", sampleSignal⟩ rfl rfl⟩

/-- C1: `shouldEmit` is true on a fresh key, false for the marked bar time
and every older one, true again only for a strictly newer bar time; hence
running the emission step twice with the identical closed-bar candidate
publishes a signal the first time and none the second. -/
theorem dedup_emits_once (store : DedupStore) (k : DedupKey) (t : Nat)
    (cand : Option Signal) :
    shouldEmit emptyDedupStore k t = true ∧
    (∀ t2, t2 ≤ t → shouldEmit (markEmitted store k t) k t2 = false) ∧
    (∀ t2, t < t2 → shouldEmit (markEmitted store k t) k t2 = true) ∧
    (∀ s, (emitStep store k t cand).1 = some s →
      (emitStep (emitStep store k t cand).2 k t cand).1 = none) := by
  have hmark : markEmitted store k t k = some t := by simp [markEmitted]
  refine ⟨rfl, ?_, ?_, ?_⟩
  · intro t2 ht2
    simp [shouldEmit, hmark]
    omega
  · intro t2 ht2
    simp [shouldEmit, hmark]
    omega
  · intro s hs
    cases cand with
    | none => simp [emitStep] at hs
    | some s0 =>
      by_cases hse : shouldEmit store k t = true
      · have h1 : emitStep store k t (some s0) = (some s0, markEmitted store k t) := by
          simp [emitStep, hse]
        rw [h1]
        have h2 : shouldEmit (markEmitted store k t) k t = false := by
          simp [shouldEmit, hmark]
        simp [emitStep, h2]
      · have h1 : emitStep store k t (some s0) = (none, store) := by
          simp [emitStep, hse]
        rw [h1] at hs
        simp at hs

/-- C1 witness: on the empty store, the RSI/BTCUSDT/1h key at bar time 5 is
cleared once, refused for the same bar time afterwards, cleared again for
bar time 6, and the emission step publishes on the first run only. -/
theorem dedup_emits_once_witness :
    shouldEmit emptyDedupStore sampleKey 5 = true ∧
    shouldEmit (markEmitted emptyDedupStore sampleKey 5) sampleKey 5 = false ∧
    shouldEmit (markEmitted emptyDedupStore sampleKey 5) sampleKey 6 = true ∧
    (emitStep (emitStep emptyDedupStore sampleKey 5 (some sampleSignal)).2
      sampleKey 5 (some sampleSignal)).1 = none :=
  ⟨(dedup_emits_once emptyDedupStore sampleKey 5 (some sampleSignal)).1,
   (dedup_emits_once emptyDedupStore sampleKey 5 (some sampleSignal)).2.1 5 (le_refl 5),
   (dedup_emits_once emptyDedupStore sampleKey 5 (some sampleSignal)).2.2.1 6 (by omega),
   (dedup_emits_once emptyDedupStore sampleKey 5 (some sampleSignal)).2.2.2
     sampleSignal rfl⟩

/-- C5: `start()` while RUNNING and `stop()` while STOPPED are no-ops
reported as success, and calling `start()` twice from the stopped state
leaves the engine RUNNING with exactly one active timer. -/
theorem engine_control_idempotent (e : EngineState) :
    (e.lifecycle = .RUNNING → startEngine e = (e, true)) ∧
    (e.lifecycle = .STOPPED → stopEngine e = (e, true)) ∧
    (e.lifecycle = .STOPPED → e.activeTimers = 0 →
      (startEngine (startEngine e).1).1.lifecycle = .RUNNING ∧
      (startEngine (startEngine e).1).1.activeTimers = 1 ∧
      (startEngine (startEngine e).1).2 = true) := by
  obtain ⟨lc, timers⟩ := e
  refine ⟨?_, ?_, ?_⟩
  · intro h
    cases lc <;> simp_all [startEngine]
  · intro h
    cases lc <;> simp_all [stopEngine]
  · intro h htimers
    cases lc <;> simp_all [startEngine]

/-- C5 witness: from the initial engine state, two consecutive `start()`
calls leave the engine RUNNING with one timer, and `stop()` on the initial
state is a successful no-op. -/
theorem engine_control_idempotent_witness :
    (startEngine (startEngine initialEngine).1).1.lifecycle = .RUNNING ∧
    (startEngine (startEngine initialEngine).1).1.activeTimers = 1 ∧
    stopEngine initialEngine = (initialEngine, true) ∧
    startEngine (startEngine initialEngine).1
      = ((startEngine initialEngine).1, true) :=
  ⟨((engine_control_idempotent initialEngine).2.2 rfl rfl).1,
   ((engine_control_idempotent initialEngine).2.2 rfl rfl).2.1,
   (engine_control_idempotent initialEngine).2.1 rfl,
   (engine_control_idempotent (startEngine initialEngine).1).1 rfl⟩

/-- C3 counterexample: with the timeframe filter state set to the empty
string (a set filter that equals no real timeframe), the spec's conjunctive
reading excludes `sampleSignal` (timeframe "1h"), but the code includes it:
JavaScript truthiness treats the empty string like an absent filter. -/
theorem filtered_conjunctive_cex :
    filteredSignals (some "") none [sampleSignal] = [sampleSignal] ∧
    ¬ specIncluded (some "") none sampleSignal := by
  constructor
  · rfl
  · intro h
    rcases h.1 with h1 | h1 <;> simp [sampleSignal] at h1

/-- C3 (amended): a signal is in the filtered feed iff it is stored and
each filter is either not truthy (null or empty) or matched exactly;
filters are conjunctive. -/
theorem filtered_signals_semantics (tf strat : Option String)
    (sigs : List Signal) (s : Signal) :
    s ∈ filteredSignals tf strat sigs ↔
      s ∈ sigs ∧ (strTruthy tf = false ∨ s.timeframe = tf.getD "")
              ∧ (strTruthy strat = false ∨ s.strategy = strat.getD "") := by
  unfold filteredSignals
  rw [List.mem_filter]
  have hpass : signalPasses tf strat s = true ↔
      (strTruthy tf = false ∨ s.timeframe = tf.getD "")
      ∧ (strTruthy strat = false ∨ s.strategy = strat.getD "") := by
    unfold signalPasses
    cases htf : strTruthy tf <;> cases hst : strTruthy strat <;>
      by_cases h1 : s.timeframe = tf.getD "" <;>
      by_cases h2 : s.strategy = strat.getD "" <;>
      simp [h1, h2]
  rw [hpass]

/-- C3 witness: the unfiltered feed keeps every stored signal, and an exact
timeframe filter keeps a matching stored signal. -/
theorem filtered_signals_semantics_witness :
    sampleSignal ∈ filteredSignals none none [sampleSignal] ∧
    sampleSignal ∈ filteredSignals (some "1h") none [sampleSignal, sampleSignal2] :=
  ⟨(filtered_signals_semantics none none [sampleSignal] sampleSignal).mpr
     ⟨by simp, Or.inl rfl, Or.inl rfl⟩,
   (filtered_signals_semantics (some "1h") none [sampleSignal, sampleSignal2]
       sampleSignal).mpr
     ⟨by simp, Or.inr rfl, Or.inl rfl⟩⟩

/-- C7 counterexample: a symbol filter that is present but empty
(`{ symbol: "" }`) is dropped by the code — the request carries no query
string at all — while the claim requires a query containing the symbol
field mapped to its given value. -/
theorem recent_signals_present_field_cex :
    (some "" : Option String) ≠ none ∧
    ("symbol", "") ∉ recentSignalsQueryPairs (some "") none none ∧
    getRecentSignalsEndpoint (some "") none none = "/signals/" := by
  refine ⟨by simp, by decide, by decide⟩

/-- C7 (amended): the query carries exactly the filter fields that are
present and non-empty, each mapped to its given value, and when no filter
field is present and non-empty the endpoint carries no query string. -/
theorem recent_signals_query_semantics (symbol strategy timeframe : Option String) :
    (∀ v, ("symbol", v) ∈ recentSignalsQueryPairs symbol strategy timeframe ↔
      (symbol = some v ∧ v ≠ "")) ∧
    (∀ v, ("strategy", v) ∈ recentSignalsQueryPairs symbol strategy timeframe ↔
      (strategy = some v ∧ v ≠ "")) ∧
    (∀ v, ("timeframe", v) ∈ recentSignalsQueryPairs symbol strategy timeframe ↔
      (timeframe = some v ∧ v ≠ "")) ∧
    (strTruthy symbol = false → strTruthy strategy = false →
      strTruthy timeframe = false →
      getRecentSignalsEndpoint symbol strategy timeframe = "/signals/") := by
  have hpart : ∀ (key : String) (o : Option String) (v : String),
      ((key, v) ∈ (if strTruthy o then [(key, o.getD "")] else [])) ↔
        (o = some v ∧ v ≠ "") := by
    intro key o v
    cases o with
    | none => simp [strTruthy]
    | some s =>
      by_cases h : s = ""
      · subst h
        simp only [strTruthy, bne_self_eq_false, Bool.false_eq_true, if_false,
          List.not_mem_nil, false_iff, not_and, Option.some.injEq]
        intro h2
        exact absurd h2.symm
      · simp only [strTruthy, Option.getD_some, bne_iff_ne, ne_eq, h,
          not_false_eq_true, if_true, List.mem_singleton, Prod.mk.injEq,
          true_and, Option.some.injEq]
        constructor
        · rintro rfl; exact ⟨rfl, h⟩
        · rintro ⟨rfl, _⟩; rfl
  have hother : ∀ (key key2 : String) (o : Option String) (v : String),
      key ≠ key2 →
      (key, v) ∉ (if strTruthy o then [(key2, o.getD "")] else []) := by
    intro key key2 o v hne
    cases strTruthy o <;> simp [Prod.mk.injEq, hne]
  refine ⟨?_, ?_, ?_, ?_⟩
  · intro v
    unfold recentSignalsQueryPairs
    rw [List.mem_append, List.mem_append, hpart]
    simp [hother "symbol" "strategy" strategy v (by decide),
      hother "symbol" "timeframe" timeframe v (by decide)]
  · intro v
    unfold recentSignalsQueryPairs
    rw [List.mem_append, List.mem_append, hpart]
    simp [hother "strategy" "symbol" symbol v (by decide),
      hother "strategy" "timeframe" timeframe v (by decide)]
  · intro v
    unfold recentSignalsQueryPairs
    rw [List.mem_append, List.mem_append, hpart]
    simp [hother "timeframe" "symbol" symbol v (by decide),
      hother "timeframe" "strategy" strategy v (by decide)]
  · intro h1 h2 h3
    unfold getRecentSignalsEndpoint recentSignalsQueryPairs
    rw [h1, h2, h3]
    rfl

/-- C7 witness: with no filter fields present the endpoint is bare, and a
present non-empty symbol filter appears in the query pairs with its given
value. -/
theorem recent_signals_query_semantics_witness :
    getRecentSignalsEndpoint none none none = "/signals/" ∧
    ("symbol", "BTCUSDT") ∈ recentSignalsQueryPairs (some "BTCUSDT") none none :=
  ⟨(recent_signals_query_semantics none none none).2.2.2 rfl rfl rfl,
   ((recent_signals_query_semantics (some "BTCUSDT") none none).1 "BTCUSDT").mpr
     ⟨rfl, by decide⟩⟩

/-- C8: on a duplicate-free symbol list, `toggleSymbol` keeps the list
duplicate-free, flips membership of the toggled symbol, and applied twice
restores exactly the original set of symbols. -/
theorem toggleSymbol_involutive (sym : String) (l : List String) (h : l.Nodup) :
    (toggleSymbolList sym l).Nodup ∧
    (sym ∈ toggleSymbolList sym l ↔ sym ∉ l) ∧
    (∀ x, x ∈ toggleSymbolList sym (toggleSymbolList sym l) ↔ x ∈ l) := by
  by_cases hm : sym ∈ l
  · have hc : l.contains sym = true := by
      simpa [List.contains, List.elem_iff] using hm
    have h1 : toggleSymbolList sym l = l.filter (fun s => s != sym) := by
      unfold toggleSymbolList
      rw [hc]
      simp
    have hnotin : sym ∉ l.filter (fun s => s != sym) := by
      simp [List.mem_filter]
    refine ⟨?_, ?_, ?_⟩
    · rw [h1]; exact h.filter _
    · rw [h1]; simp [hnotin, hm]
    · intro x
      have hc2 : (l.filter (fun s => s != sym)).contains sym = false := by
        simp only [List.contains, List.elem_iff] at hnotin ⊢
        simp [hnotin]
      rw [h1]
      have h2 : toggleSymbolList sym (l.filter (fun s => s != sym))
          = l.filter (fun s => s != sym) ++ [sym] := by
        unfold toggleSymbolList
        rw [hc2]
        simp
      rw [h2]
      simp only [List.mem_append, List.mem_filter, List.mem_singleton,
        bne_iff_ne, ne_eq, decide_eq_true_eq]
      constructor
      · rintro (⟨hx, _⟩ | rfl)
        · exact hx
        · exact hm
      · intro hx
        by_cases hxs : x = sym
        · exact Or.inr hxs
        · exact Or.inl ⟨hx, hxs⟩
  · have hc : l.contains sym = false := by
      simpa [List.contains, List.elem_iff] using hm
    have h1 : toggleSymbolList sym l = l ++ [sym] := by
      unfold toggleSymbolList
      rw [hc]
      simp
    refine ⟨?_, ?_, ?_⟩
    · rw [h1]
      refine List.Nodup.append h (List.nodup_singleton sym) ?_
      intro x hx hx2
      rw [List.mem_singleton] at hx2
      subst hx2
      exact hm hx
    · rw [h1]; simp [hm]
    · intro x
      have hin : sym ∈ l ++ [sym] := by simp
      have hc2 : (l ++ [sym]).contains sym = true := by
        simp [List.contains, List.elem_iff]
      have h2 : toggleSymbolList sym (l ++ [sym])
          = (l ++ [sym]).filter (fun s => s != sym) := by
        unfold toggleSymbolList
        rw [hc2]
        simp
      have h3 : (l ++ [sym]).filter (fun s => s != sym) = l := by
        rw [List.filter_append]
        have h4 : l.filter (fun s => s != sym) = l := by
          apply List.filter_eq_self.mpr
          intro a ha
          simp only [bne_iff_ne, ne_eq, decide_eq_true_eq]
          intro heq
          subst heq
          exact hm ha
        simp [h4]
      rw [h1, h2, h3]

/-- C8 witness: toggling "BTCUSDT" into ["ETHUSDT"] flips its membership on
a duplicate-free list and keeps the result duplicate-free. -/
theorem toggleSymbol_involutive_witness :
    (toggleSymbolList "BTCUSDT" ["ETHUSDT"]).Nodup ∧
    ("BTCUSDT" ∈ toggleSymbolList "BTCUSDT" ["ETHUSDT"] ↔
      "BTCUSDT" ∉ ["ETHUSDT"]) ∧
    ("ETHUSDT" ∈ toggleSymbolList "BTCUSDT"
        (toggleSymbolList "BTCUSDT" ["ETHUSDT"]) ↔ "ETHUSDT" ∈ ["ETHUSDT"]) :=
  ⟨(toggleSymbol_involutive "BTCUSDT" ["ETHUSDT"] (by decide)).1,
   (toggleSymbol_involutive "BTCUSDT" ["ETHUSDT"] (by decide)).2.1,
   (toggleSymbol_involutive "BTCUSDT" ["ETHUSDT"] (by decide)).2.2 "ETHUSDT"⟩

section IndicatorLengths

/-- A series with at most one entry has no last-two pair. -/
theorem lastTwo_eq_none {l : List ℚ} (h : l.length ≤ 1) : lastTwo l = none := by
  cases l with
  | nil => rfl
  | cons a t =>
    cases t with
    | nil => rfl
    | cons b t2 => simp at h

/-- Length of a seeded smoothed series: zero on insufficient input, else one
value per input bar from the seed window on. -/
theorem seededSeries_length (p : Nat) (step : ℚ → ℚ → ℚ) (xs : List ℚ) :
    (seededSeries p step xs).length =
      if xs.length < p ∨ p = 0 then 0 else xs.length - p + 1 := by
  unfold seededSeries
  split
  · rfl
  · simp [List.length_scanl]

/-- One gain per consecutive close pair. -/
theorem gains_length (closes : List ℚ) : (gains closes).length = closes.length - 1 := by
  simp [gains]

/-- One loss per consecutive close pair. -/
theorem losses_length (closes : List ℚ) : (losses closes).length = closes.length - 1 := by
  simp [losses]

/-- The RSI series never holds more than inputLength − period values. -/
theorem rsiSeries_length_le (p : Nat) (closes : List ℚ) :
    (rsiSeries p closes).length ≤ closes.length - p := by
  unfold rsiSeries wilderSeries
  rw [List.length_zipWith, seededSeries_length, seededSeries_length,
    gains_length, losses_length]
  by_cases h : closes.length - 1 < p ∨ p = 0
  · rw [if_pos h]
    simp
  · rw [if_neg h, min_self]
    omega

/-- The MACD series is no longer than the slow EMA series it is aligned
to. -/
theorem macdSeries_length_le (fast slow : Nat) (closes : List ℚ) :
    (macdSeries fast slow closes).length ≤ (emaSeries slow closes).length := by
  unfold macdSeries
  rw [List.length_zipWith]
  exact min_le_right _ _

/-- The (MACD − signal) series is no longer than the signal-line EMA series
it is aligned to. -/
theorem macdSignalDiffs_length_le (fast slow sp : Nat) (closes : List ℚ) :
    (macdSignalDiffs fast slow sp closes).length ≤
      (emaSeries sp (macdSeries fast slow closes)).length := by
  unfold macdSignalDiffs
  rw [List.length_zipWith]
  exact min_le_right _ _

/-- Length of the rolling SMA series: one value per full window. -/
theorem smaSeries_length (n : Nat) (xs : List ℚ) :
    (smaSeries n xs).length = if n = 0 then 0 else xs.length + 1 - n := by
  unfold smaSeries
  split
  · rfl
  · simp

/-- The EMA series is empty on insufficient input. -/
theorem emaSeries_eq_nil {p : Nat} {xs : List ℚ} (h : xs.length < p) :
    emaSeries p xs = [] := by
  unfold emaSeries seededSeries
  exact if_pos (Or.inl h)

/-- The RSI series is empty when the input does not exceed the warm-up. -/
theorem rsiSeries_eq_nil {p : Nat} {closes : List ℚ} (h : closes.length ≤ p) :
    rsiSeries p closes = [] := by
  have hle := rsiSeries_length_le p closes
  have h0 : (rsiSeries p closes).length = 0 := by omega
  exact List.length_eq_zero.mp h0

/-- On insufficient input the EMA series has no last value. -/
theorem emaSeries_getLast_none (p : Nat) (closes : List ℚ)
    (h : closes.length < p) : (emaSeries p closes).getLast? = none := by
  rw [emaSeries_eq_nil h]
  rfl

/-- On insufficient input the RSI series has no last value. -/
theorem rsiSeries_getLast_none (p : Nat) (closes : List ℚ)
    (h : closes.length < p + 1) : (rsiSeries p closes).getLast? = none := by
  rw [rsiSeries_eq_nil (by omega)]
  rfl

/-- On insufficient input the RSI signal line has no value at the previous
bar. -/
theorem rsiCross_smaLast_none (p sp : Nat) (closes : List ℚ)
    (h : closes.length < p + sp + 1) :
    smaLast sp (rsiSeries p closes).dropLast = none := by
  have hlen := rsiSeries_length_le p closes
  unfold smaLast
  by_cases h0 : sp = 0
  · rw [if_pos h0]
  · rw [if_neg h0, if_pos (by rw [List.length_dropLast]; omega)]

/-- On insufficient input the dual-EMA diff series has no last-two pair. -/
theorem macdSeries_lastTwo_none (fast slow : Nat) (closes : List ℚ)
    (h : closes.length < slow + 1) :
    lastTwo (macdSeries fast slow closes) = none := by
  apply lastTwo_eq_none
  have h1 := macdSeries_length_le fast slow closes
  have h2 : (emaSeries slow closes).length =
      if closes.length < slow ∨ slow = 0 then 0
      else closes.length - slow + 1 := by
    unfold emaSeries
    exact seededSeries_length _ _ _
  by_cases hB : closes.length < slow ∨ slow = 0
  · rw [if_pos hB] at h2
    omega
  · rw [if_neg hB] at h2
    omega

/-- On insufficient input the (MACD − signal) series has no last-two
pair. -/
theorem macdSignalDiffs_lastTwo_none (fast slow sp : Nat) (closes : List ℚ)
    (h : closes.length < slow + sp) :
    lastTwo (macdSignalDiffs fast slow sp closes) = none := by
  apply lastTwo_eq_none
  have h1 := macdSeries_length_le fast slow closes
  have h2 : (emaSeries slow closes).length =
      if closes.length < slow ∨ slow = 0 then 0
      else closes.length - slow + 1 := by
    unfold emaSeries
    exact seededSeries_length _ _ _
  have h3 : (emaSeries sp (macdSeries fast slow closes)).length =
      if (macdSeries fast slow closes).length < sp ∨ sp = 0 then 0
      else (macdSeries fast slow closes).length - sp + 1 := by
    unfold emaSeries
    exact seededSeries_length _ _ _
  have hd := macdSignalDiffs_length_le fast slow sp closes
  rw [h3] at hd
  by_cases hA : (macdSeries fast slow closes).length < sp ∨ sp = 0
  · rw [if_pos hA] at hd
    omega
  · rw [if_neg hA] at hd
    by_cases hB : closes.length < slow ∨ slow = 0
    · rw [if_pos hB] at h2
      omega
    · rw [if_neg hB] at h2
      omega

/-- On insufficient input the HA-RSI cloud diff series has no last-two
pair. -/
theorem gcmCloudDiffs_lastTwo_none (len smooth : Nat) (closes : List ℚ)
    (h : closes.length < len + smooth + 1) :
    lastTwo (gcmCloudDiffs len smooth closes) = none := by
  apply lastTwo_eq_none
  unfold gcmCloudDiffs
  rw [List.length_zipWith]
  have hr := rsiSeries_length_le len closes
  have hs := smaSeries_length smooth (rsiSeries len closes)
  have hle : min (smaSeries smooth (rsiSeries len closes)).length
      (smaSeries smooth (haOpenSeries (rsiSeries len closes))).length
      ≤ (smaSeries smooth (rsiSeries len closes)).length := min_le_left _ _
  by_cases h0 : smooth = 0
  · rw [if_pos h0] at hs
    omega
  · rw [if_neg h0] at hs
    omega

/-- On insufficient input the (RSI − signal) series has no last-two
pair. -/
theorem rsiSignalDiffs_lastTwo_none (p ma : Nat) (closes : List ℚ)
    (h : closes.length < p + ma + 1) :
    lastTwo (rsiSignalDiffs p ma closes) = none := by
  apply lastTwo_eq_none
  unfold rsiSignalDiffs
  rw [List.length_zipWith]
  have hr := rsiSeries_length_le p closes
  have hs := smaSeries_length ma (rsiSeries p closes)
  have hle : min ((rsiSeries p closes).drop (ma - 1)).length
      (smaSeries ma (rsiSeries p closes)).length
      ≤ (smaSeries ma (rsiSeries p closes)).length := min_le_right _ _
  by_cases h0 : ma = 0
  · rw [if_pos h0] at hs
    omega
  · rw [if_neg h0] at hs
    omega

end IndicatorLengths

/-- C6: every strategy evaluator of §4.2 — RSI (gated or ungated), MACD,
GCM, RSI+EMA50, Scalping, Swing Trade, Day Trade and JFN — abstains on
insufficient history: called with fewer closed candles than the minimum
lookback its indicators need, it returns no candidate (the evaluators are
total functions, so no error is raised). -/
theorem evaluators_abstain_short (closes : List ℚ) (rcfg : RsiStrategyConfig)
    (mcfg : MacdStrategyConfig) (gcfg : GcmStrategyConfig)
    (recfg : RsiEma50StrategyConfig) (sccfg : ScalpingStrategyConfig)
    (swcfg : SwingStrategyConfig) (dtcfg : DayTradeStrategyConfig)
    (jcfg : JfnStrategyConfig) :
    (closes.length < rsiMinLookback rcfg → rsiEvaluate rcfg closes = none) ∧
    (closes.length < macdMinLookback mcfg → macdEvaluate mcfg closes = none) ∧
    (closes.length < gcmMinLookback gcfg → gcmEvaluate gcfg closes = none) ∧
    (closes.length < rsiEma50MinLookback recfg →
      rsiEma50Evaluate recfg closes = none) ∧
    (closes.length < scalpingMinLookback sccfg →
      scalpingEvaluate sccfg closes = none) ∧
    (closes.length < swingMinLookback swcfg → swingEvaluate swcfg closes = none) ∧
    (closes.length < dayTradeMinLookback dtcfg →
      dayTradeEvaluate dtcfg closes = none) ∧
    (closes.length < jfnMinLookback jcfg → jfnEvaluate jcfg closes = none) := by
  refine ⟨?_, ?_, ?_, ?_, ?_, ?_, ?_, ?_⟩
  · intro h
    unfold rsiMinLookback at h
    rcases lt_max_iff.mp h with hA | hB
    · have hnone := rsiCross_smaLast_none rcfg.period rcfg.signalPeriod closes hA
      rcases hE : (if rcfg.useEmaFilter then (emaSeries 50 closes).getLast?
          else some 0) with _ | ema
      · unfold rsiEvaluate
        rw [hE]
      · unfold rsiEvaluate
        rw [hE, hnone]
    · cases hf : rcfg.useEmaFilter with
      | false =>
        rw [hf] at hB
        simp at hB
      | true =>
        have hB50 : closes.length < 50 := by
          rw [hf] at hB
          simpa using hB
        have hE : (if rcfg.useEmaFilter then (emaSeries 50 closes).getLast?
            else some 0) = none := by
          rw [hf]
          simp [emaSeries_eq_nil hB50]
        unfold rsiEvaluate
        rw [hE]
  · intro h
    unfold macdMinLookback at h
    have hnone := macdSignalDiffs_lastTwo_none mcfg.fast mcfg.slow
      mcfg.signalPeriod closes h
    unfold macdEvaluate
    rw [hnone]
  · intro h
    unfold gcmMinLookback at h
    have hnone := gcmCloudDiffs_lastTwo_none gcfg.harsiLen gcfg.harsiSmooth closes h
    unfold gcmEvaluate
    rw [hnone]
  · intro h
    unfold rsiEma50MinLookback at h
    rcases lt_max_iff.mp h with hA | hB
    · have hnone := rsiCross_smaLast_none recfg.rsiPeriod recfg.rsiSignalPeriod
        closes hA
      rcases hE : (emaSeries recfg.emaPeriod closes).getLast? with _ | ema
      · unfold rsiEma50Evaluate
        rw [hE]
      · unfold rsiEma50Evaluate
        rw [hE, hnone]
    · have hE := emaSeries_getLast_none recfg.emaPeriod closes hB
      unfold rsiEma50Evaluate
      rw [hE]
  · intro h
    unfold scalpingMinLookback at h
    rcases lt_max_iff.mp h with hA | hB
    · have hnone := macdSeries_lastTwo_none sccfg.emaFast sccfg.emaSlow closes hA
      unfold scalpingEvaluate
      rw [hnone]
    · have hnone := rsiSeries_getLast_none sccfg.rsiPeriod closes hB
      rcases hE : lastTwo (macdSeries sccfg.emaFast sccfg.emaSlow closes)
        with _ | ⟨dPrev, dNow⟩
      · unfold scalpingEvaluate
        rw [hE]
      · unfold scalpingEvaluate
        rw [hE, hnone]
  · intro h
    unfold swingMinLookback at h
    rcases lt_max_iff.mp h with hA | hB
    · have hnone := gcmCloudDiffs_lastTwo_none swcfg.harsiLen swcfg.harsiSmooth
        closes hA
      rcases hE : (emaSeries swcfg.emaFilter closes).getLast? with _ | ema
      · unfold swingEvaluate
        rw [hE]
      · unfold swingEvaluate
        rw [hE, hnone]
    · have hE := emaSeries_getLast_none swcfg.emaFilter closes hB
      unfold swingEvaluate
      rw [hE]
  · intro h
    unfold dayTradeMinLookback at h
    rcases lt_max_iff.mp h with hA | hB
    · have hnone := macdSignalDiffs_lastTwo_none dtcfg.macdFast dtcfg.macdSlow
        dtcfg.macdSignalPeriod closes hA
      unfold dayTradeEvaluate
      rw [hnone]
    · have hnone := rsiSignalDiffs_lastTwo_none dtcfg.rsiPeriod dtcfg.rsiMaPeriod
        closes hB
      rcases hE : lastTwo (macdSignalDiffs dtcfg.macdFast dtcfg.macdSlow
          dtcfg.macdSignalPeriod closes) with _ | ⟨dPrev, dNow⟩
      · unfold dayTradeEvaluate
        rw [hE]
      · unfold dayTradeEvaluate
        rw [hE, hnone]
  · intro h
    unfold jfnMinLookback at h
    have hnone := macdSeries_lastTwo_none jcfg.fastLength jcfg.slowLength closes h
    unfold jfnEvaluate
    rw [hnone]

/-- C6 witness: with the dashboard's default parameters for all eight
strategies, every evaluator abstains on a three-candle history. -/
theorem evaluators_abstain_short_witness :
    rsiEvaluate ⟨14, 9, true⟩ [1, 2, 3] = none ∧
    macdEvaluate ⟨12, 26, 9⟩ [1, 2, 3] = none ∧
    gcmEvaluate ⟨10, 5⟩ [1, 2, 3] = none ∧
    rsiEma50Evaluate ⟨14, 9, 50⟩ [1, 2, 3] = none ∧
    scalpingEvaluate ⟨9, 50, 14, 50⟩ [1, 2, 3] = none ∧
    swingEvaluate ⟨14, 7, 100⟩ [1, 2, 3] = none ∧
    dayTradeEvaluate ⟨12, 26, 9, 14, 9, 6⟩ [1, 2, 3] = none ∧
    jfnEvaluate ⟨20, 50⟩ [1, 2, 3] = none :=
  have h := evaluators_abstain_short [1, 2, 3] ⟨14, 9, true⟩ ⟨12, 26, 9⟩
    ⟨10, 5⟩ ⟨14, 9, 50⟩ ⟨9, 50, 14, 50⟩ ⟨14, 7, 100⟩ ⟨12, 26, 9, 14, 9, 6⟩
    ⟨20, 50⟩
  ⟨h.1 (by decide), h.2.1 (by decide), h.2.2.1 (by decide),
   h.2.2.2.1 (by decide), h.2.2.2.2.1 (by decide), h.2.2.2.2.2.1 (by decide),
   h.2.2.2.2.2.2.1 (by decide), h.2.2.2.2.2.2.2 (by decide)⟩

/-- Sanity check that the RSI evaluator is not constantly abstaining: on a
5-bar history with RSI(2), a 2-bar signal line and the EMA gate off, a
cross-up fires a LONG candidate. -/
theorem rsiEvaluate_fires_sanity :
    rsiEvaluate ⟨2, 2, false⟩ [3, 2, 1, 1, 5] = some .LONG := by
  norm_num [rsiEvaluate, rsiSeries, wilderSeries, seededSeries, gains, losses,
    smaLast, lastTwo, List.scanl]

/-- Sanity check that the MACD evaluator is not constantly abstaining: on a
6-bar history with MACD(2,3,2), the sign of (MACD − signal) flips to
positive on the last bar and fires a LONG candidate. -/
theorem macdEvaluate_fires_sanity :
    macdEvaluate ⟨2, 3, 2⟩ [1, 2, 3, 2, 1, 2] = some .LONG := by
  norm_num [macdEvaluate, macdSignalDiffs, macdSeries, emaSeries, seededSeries,
    lastTwo, List.scanl]

/-- Sanity check that the GCM evaluator is not constantly abstaining: the
smoothed HA-RSI cloud crosses upward on the last bar and fires a LONG
candidate. -/
theorem gcmEvaluate_fires_sanity :
    gcmEvaluate ⟨2, 2⟩ [3, 2, 1, 1, 5] = some .LONG := by
  norm_num [gcmEvaluate, gcmCloudDiffs, smaSeries, haOpenSeries, rsiSeries,
    wilderSeries, seededSeries, gains, losses, lastTwo, List.scanl,
    List.range_succ]

/-- Sanity check that the RSI+EMA50 evaluator is not constantly abstaining:
an RSI cross-up with the closing price above the trend EMA fires a LONG
candidate. -/
theorem rsiEma50Evaluate_fires_sanity :
    rsiEma50Evaluate ⟨2, 2, 3⟩ [3, 2, 1, 1, 5] = some .LONG := by
  norm_num [rsiEma50Evaluate, rsiSeries, wilderSeries, seededSeries, gains,
    losses, smaLast, lastTwo, emaSeries, List.scanl]

/-- Sanity check that the Scalping evaluator is not constantly abstaining:
a fast/slow EMA cross-up with the RSI above its neutral level fires a LONG
candidate. -/
theorem scalpingEvaluate_fires_sanity :
    scalpingEvaluate ⟨2, 3, 2, 50⟩ [3, 2, 1, 2, 9] = some .LONG := by
  norm_num [scalpingEvaluate, macdSeries, emaSeries, seededSeries, rsiSeries,
    wilderSeries, gains, losses, lastTwo, List.scanl]

/-- Sanity check that the Swing Trade evaluator is not constantly
abstaining: an HA-RSI cloud cross-up with the closing price above the
filter EMA fires a LONG candidate. -/
theorem swingEvaluate_fires_sanity :
    swingEvaluate ⟨2, 2, 4⟩ [3, 2, 1, 1, 5] = some .LONG := by
  norm_num [swingEvaluate, gcmCloudDiffs, smaSeries, haOpenSeries, rsiSeries,
    wilderSeries, seededSeries, gains, losses, lastTwo, emaSeries, List.scanl,
    List.range_succ]

/-- Sanity check that the Day Trade evaluator is not constantly abstaining:
the RSI component crosses up on the last bar and the MACD component crossed
up within the confirmation window, so the confluence fires a LONG
candidate. -/
theorem dayTradeEvaluate_fires_sanity :
    dayTradeEvaluate ⟨2, 3, 2, 2, 2, 6⟩ [5, 4, 3, 2, 1, 1, 5] = some .LONG := by
  norm_num [dayTradeEvaluate, macdSignalDiffs, rsiSignalDiffs, macdSeries,
    emaSeries, seededSeries, rsiSeries, wilderSeries, gains, losses, smaSeries,
    lastTwo, crossUpNow, crossDownNow, crossUpFlags, crossDownFlags, recentAny,
    List.scanl, List.range_succ]

/-- Sanity check that the JFN evaluator is not constantly abstaining: the
fast EMA crosses above the slow EMA on the last bar and fires a LONG
candidate. -/
theorem jfnEvaluate_fires_sanity :
    jfnEvaluate ⟨2, 3⟩ [1, 2, 3, 2, 1, 2] = some .LONG := by
  norm_num [jfnEvaluate, macdSeries, emaSeries, seededSeries, lastTwo,
    List.scanl]

end PortalSinais
